import Mathlib

/-!
Verification development for the CODSOFT movie-rating pipeline.

The repository has two entry scripts, `main.py` and `jupyter_analysis.py`.
Both orchestrate five helper classes (`DataLoader`, `DataCleaner`,
`EDAAnalyzer`, `FeatureEngineer`, `MovieRatingPredictor`) that are imported
from modules not present in the sources; their behaviour is therefore
modelled from the specification as an environment of library-call outcomes.
Each entry script is embedded as a deterministic function from such an
environment to the trace of events it performs (library calls, file reads,
console prints) together with its result: the returned dictionary, `None`
after the handled load failure, or an uncaught exception.
-/

namespace MoviePipeline

/-- Exception raised by an underlying library call and never caught by the
entry scripts; carries a human-readable message. -/
inductive Exc where
  | raised : String → Exc
deriving DecidableEq, Repr

/-- Abstract dataframe: the embedding only tracks the row count and the
rating statistics that the entry scripts print. -/
structure DataFrame where
  nrows : Nat
  rating_mean : ℚ
  rating_min : ℚ
  rating_max : ℚ
deriving DecidableEq, Repr

/-- Summary returned by `DataCleaner.get_cleaned_summary` and printed by
`main.py`: the final shape and the missing-value count. -/
structure CleanSummary where
  shape : Nat × Nat
  missing_values : Nat
deriving DecidableEq, Repr

/-- Row of the `yearly_ratings` table of the EDA report: a year with the
mean rating and the movie count of that year. -/
structure YearRow where
  year : Nat
  mean : ℚ
  count : Nat
deriving DecidableEq, Repr

/-- Modelled from the spec: the report dictionary built by
`EDAAnalyzer.generate_comprehensive_report` (in `src/eda_analyzer.py`,
absent from the sources). The entry scripts look up the keys
`yearly_ratings` (guarded by a presence check and a not-None check, both
folded into the `Option`) and `genre_analysis` (guarded by a presence
check and a nonemptiness check). -/
structure EdaReport where
  yearly_ratings : Option (List YearRow)
  genre_analysis : Option (List String)
deriving DecidableEq, Repr

/-- Feature matrix produced by `FeatureEngineer.prepare_for_ml`; the
embedding tracks only the column count that `main.py` prints. -/
structure Features where
  ncols : Nat
deriving DecidableEq, Repr

/-- Target vector produced by `FeatureEngineer.prepare_for_ml`; the
embedding tracks the mean and standard deviation that `main.py` prints. -/
structure Target where
  mean : ℚ
  std : ℚ
deriving DecidableEq, Repr

/-- Row of the model-evaluation table: one fitted model with its test
metrics. -/
structure ModelRow where
  model : String
  testR2 : ℚ
  testRMSE : ℚ
  testMAE : ℚ
deriving DecidableEq, Repr

instance : Inhabited ModelRow := ⟨⟨"", 0, 0, 0⟩⟩

/-- Internal state of a `MovieRatingPredictor`: the fitted models with
their current test metrics, mutated in place by hyperparameter tuning. -/
abbrev PredState := List ModelRow

/-- Opaque handle for the feature-importance table returned by
`MovieRatingPredictor.get_feature_importance`. -/
structure ImportanceDf where
  table_id : Nat
deriving DecidableEq, Repr

/-- Ranking relation of the evaluation table: row `a` precedes row `b`
when the test R² of `b` is at most that of `a` (descending order). -/
def byDescR2 (a b : ModelRow) : Prop := b.testR2 ≤ a.testR2

instance : DecidableRel byDescR2 :=
  fun a b => inferInstanceAs (Decidable (b.testR2 ≤ a.testR2))

instance : IsTotal ModelRow byDescR2 :=
  ⟨fun a b => le_total b.testR2 a.testR2⟩

instance : IsTrans ModelRow byDescR2 :=
  ⟨fun _ _ _ hab hbc => le_trans hbc hab⟩

/-- Modelled from the spec: `MovieRatingPredictor.evaluate_models` (in
`src/ml_models.py`, absent from the sources) scores the fitted models and
ranks the resulting table by test R², best first. -/
def evaluate_models (s : PredState) : List ModelRow :=
  List.insertionSort byDescR2 s

/-- Modelled from the spec: `pandas.Series.idxmax` semantics used by the
best-year lookup — the first row attaining the maximal value of `f`, and
none on an empty table (where the library raises instead). -/
def firstMaxBy (f : YearRow → ℚ) : List YearRow → Option YearRow
  | [] => none
  | r :: rs =>
    match firstMaxBy f rs with
    | none => some r
    | some m => some (if f r < f m then m else r)

/-- Stage call performed by an entry script on one of the pipeline
classes. -/
inductive Stage where
  | loadData
  | getDataInfo
  | getBasicStats
  | cleanData
  | getCleanedSummary
  | generateComprehensiveReport
  | createFeatures
  | prepareForMl (target_col : String)
  | trainModels
  | evaluateModels
  | plotModelComparison
  | plotPredictions
  | getFeatureImportance
  | hyperparameterTuning (model_name : String)
deriving DecidableEq, Repr

/-- Console message printed by an entry script; payload-carrying
constructors record the data the printed text was computed from. -/
inductive Msg where
  | banner (s : String)
  | loadFailed (s : String)
  | cleaningSummary (c : CleanSummary)
  | cleanedShape (d : DataFrame)
  | datasetSummary (nmovies : Nat) (nfeatures : Nat) (mean std : ℚ)
  | bestModelReport (row : ModelRow)
  | bestYear (row : YearRow)
  | accuracyLine (row : ModelRow)
  | datasetOverview (n : Nat) (mean mn mx : ℚ)
  | temporalInsights (best mostProductive : YearRow)
  | genreInsights (top : String)
  | modelPerformance (row : ModelRow)
  | recommendations
  | epilogueSuggestions
  | epilogueComplete
deriving DecidableEq, Repr

/-- Observable event of a run: a stage call, a file read, a file write
(never emitted by these scripts, present so that their absence is a
statement), or a console print. -/
inductive Event where
  | stage (s : Stage)
  | fileRead (path : String)
  | fileWrite (path : String)
  | print (m : Msg)
deriving DecidableEq, Repr

/-- Fixed CSV path hard-coded in both entry scripts. -/
def csvPath : String := "data/IMDb Movies India.csv"

/-- Modelled from the spec: default `target_col` of
`FeatureEngineer.prepare_for_ml` (in `src/feature_engineer.py`, absent
from the sources); the pipeline predicts the rating column. -/
def prepare_for_ml_default_target : String := "rating"

/-- Environment of library-call outcomes: one field per out-of-source
library method invoked by the entry scripts, each returning either a value
or a raised exception. -/
structure Env where
  load_data : Except Exc (Option DataFrame)
  get_data_info : Except Exc Unit
  get_basic_stats : Except Exc Unit
  clean_data : DataFrame → Except Exc DataFrame
  get_cleaned_summary : DataFrame → Except Exc CleanSummary
  generate_comprehensive_report : DataFrame → Except Exc EdaReport
  create_features : DataFrame → Except Exc DataFrame
  prepare_for_ml : DataFrame → String → Except Exc (Features × Target)
  train_models : Features → Target → Except Exc PredState
  plot_model_comparison : PredState → Except Exc Unit
  plot_predictions : PredState → Except Exc Unit
  get_feature_importance : PredState → Except Exc ImportanceDf
  hyperparameter_tuning : String → PredState → Except Exc PredState

/-- Heterogeneous value stored in the dictionary an entry script
returns. -/
inductive ResVal where
  | dataV (d : DataFrame)
  | featV (x : Features)
  | targV (y : Target)
  | tableV (t : List ModelRow)
  | edaV (r : EdaReport)
  | predV (s : PredState)
  | impV (i : ImportanceDf)
deriving DecidableEq, Repr

/-- Result of a pipeline function: the events it performed, and either its
Python return value (`none` after the handled load failure, `some` the
returned dictionary) or the uncaught exception that ended it. -/
abbrev RunResult := List Event × Except Exc (Option (List (String × ResVal)))

/-- Sequence a library call: emit the events `pre` (prints leading up to
the call and the call itself), then continue with `k` on success or stop
with the uncaught exception. -/
def emitCall {α : Type} (pre : List Event) (r : Except Exc α)
    (k : α → RunResult) : RunResult :=
  match r with
  | .ok a => ((pre ++ (k a).1), (k a).2)
  | .error e => (pre, .error e)

/-- Embedding of `main` from `main.py`: the full pipeline of the batch
entry script, from the header prints to the returned results
dictionary. -/
def mainRun (env : Env) : RunResult :=
  emitCall [.print (.banner "MOVIE RATING PREDICTION SYSTEM"),
            .print (.banner "1. LOADING DATA..."),
            .fileRead csvPath, .stage .loadData] env.load_data fun df? =>
  match df? with
  | none =>
    ([.print (.loadFailed "Failed to load data. Please check the file path.")],
     .ok none)
  | some df =>
  emitCall [.stage .getDataInfo] env.get_data_info fun _ =>
  emitCall [.stage .getBasicStats] env.get_basic_stats fun _ =>
  emitCall [.print (.banner "2. CLEANING DATA..."), .stage .cleanData]
      (env.clean_data df) fun dfc =>
  emitCall [.stage .getCleanedSummary] (env.get_cleaned_summary df) fun summ =>
  emitCall [.print (.cleaningSummary summ),
            .print (.banner "3. EXPLORATORY DATA ANALYSIS..."),
            .stage .generateComprehensiveReport]
      (env.generate_comprehensive_report dfc) fun eda =>
  emitCall [.print (.banner "4. FEATURE ENGINEERING..."), .stage .createFeatures]
      (env.create_features dfc) fun _dff =>
  emitCall [.stage (.prepareForMl "rating")]
      (env.prepare_for_ml dfc "rating") fun xy =>
  emitCall [.print (.banner "5. MACHINE LEARNING MODELING..."),
            .stage .trainModels] (env.train_models xy.1 xy.2) fun s0 =>
  emitCall [.stage .evaluateModels, .stage .plotModelComparison]
      (env.plot_model_comparison s0) fun _ =>
  emitCall [.stage .plotPredictions] (env.plot_predictions s0) fun _ =>
  emitCall [.stage .getFeatureImportance] (env.get_feature_importance s0) fun _imp =>
  emitCall [.print (.banner "6. HYPERPARAMETER TUNING..."),
            .stage (.hyperparameterTuning "Random Forest")]
      (env.hyperparameter_tuning "Random Forest" s0) fun s1 =>
  emitCall [.stage (.hyperparameterTuning "Gradient Boosting")]
      (env.hyperparameter_tuning "Gradient Boosting" s1) fun s2 =>
  let final_results := evaluate_models s2
  let pre := [.stage .evaluateModels,
              .print (.banner "FINAL ANALYSIS REPORT"),
              .print (.datasetSummary dfc.nrows xy.1.ncols xy.2.mean xy.2.std)]
  match final_results with
  | [] => (pre, .error (.raised "IndexError"))
  | best :: rest =>
    let pre2 := pre ++ [.print (.bestModelReport best)]
    let fin : List Event → RunResult := fun evs =>
      (evs ++ [.print (.accuracyLine best),
               .print (.banner "ANALYSIS COMPLETED SUCCESSFULLY!")],
       .ok (some [("cleaned_data", .dataV dfc),
                  ("features", .featV xy.1),
                  ("target", .targV xy.2),
                  ("model_results", .tableV (best :: rest)),
                  ("eda_report", .edaV eda),
                  ("predictor", .predV s2)]))
    match eda.yearly_ratings with
    | none => fin pre2
    | some tbl =>
      match firstMaxBy (fun r => r.mean) tbl with
      | none => (pre2, .error (.raised "ValueError"))
      | some yr => fin (pre2 ++ [.print (.bestYear yr)])

/-- Embedding of the `main.py` script as executed: the `__main__` block
runs `main()` and then unconditionally prints the additional-analysis
suggestions, which are skipped only if `main` raised. The script reads no
command-line arguments, so `argv` is unused. -/
def mainScript (env : Env) (_argv : List String) : RunResult :=
  let p := mainRun env
  match p.2 with
  | .error e => (p.1, .error e)
  | .ok r =>
    (p.1 ++ [.print (.banner "ADDITIONAL ANALYSIS SUGGESTIONS"),
             .print .epilogueSuggestions], .ok r)

/-- Embedding of `interactive_analysis` from `jupyter_analysis.py`,
inlining its helper functions `load_and_explore_data`,
`clean_and_preprocess`, `perform_eda`, `build_and_evaluate_models` and
`generate_insights` in the order it calls them. -/
def jupyterRun (env : Env) : RunResult :=
  emitCall [.print (.banner "INTERACTIVE MOVIE RATING ANALYSIS"),
            .print (.banner "Loading and exploring data..."),
            .fileRead csvPath, .stage .loadData] env.load_data fun df? =>
  match df? with
  | none =>
    ([.print (.loadFailed "Error: Could not load data file")], .ok none)
  | some df =>
  emitCall [.stage .getDataInfo] env.get_data_info fun _ =>
  emitCall [.print (.banner "Cleaning and preprocessing data..."),
            .stage .cleanData] (env.clean_data df) fun dfc =>
  emitCall [.print (.cleanedShape dfc),
            .print (.banner "Performing Exploratory Data Analysis..."),
            .stage .generateComprehensiveReport]
      (env.generate_comprehensive_report dfc) fun eda =>
  emitCall [.print (.banner "Building and evaluating machine learning models..."),
            .stage .createFeatures] (env.create_features dfc) fun _dff =>
  emitCall [.stage (.prepareForMl prepare_for_ml_default_target)]
      (env.prepare_for_ml dfc prepare_for_ml_default_target) fun xy =>
  emitCall [.stage .trainModels] (env.train_models xy.1 xy.2) fun s0 =>
  emitCall [.stage .evaluateModels, .stage .plotModelComparison]
      (env.plot_model_comparison s0) fun _ =>
  emitCall [.stage .plotPredictions] (env.plot_predictions s0) fun _ =>
  emitCall [.stage .getFeatureImportance] (env.get_feature_importance s0) fun imp =>
  let results := evaluate_models s0
  let pre := [.print (.banner "KEY INSIGHTS AND RECOMMENDATIONS"),
              .print (.datasetOverview dfc.nrows dfc.rating_mean
                        dfc.rating_min dfc.rating_max)]
  let finish2 : List Event → RunResult := fun evs =>
    match results with
    | [] => (evs, .error (.raised "IndexError"))
    | best :: rest =>
      (evs ++ [.print (.modelPerformance best), .print .recommendations],
       .ok (some [("data", .dataV dfc),
                  ("eda_report", .edaV eda),
                  ("model_results", .tableV (best :: rest)),
                  ("predictor", .predV s0),
                  ("feature_importance", .impV imp)]))
  let genrePart : List Event → RunResult := fun evs =>
    match eda.genre_analysis with
    | some (g :: _) => finish2 (evs ++ [.print (.genreInsights g)])
    | _ => finish2 evs
  match eda.yearly_ratings with
  | none => genrePart pre
  | some tbl =>
    match firstMaxBy (fun r => r.mean) tbl, firstMaxBy (fun r => (r.count : ℚ)) tbl with
    | some a, some b => genrePart (pre ++ [.print (.temporalInsights a b)])
    | _, _ => (pre, .error (.raised "ValueError"))

/-- Embedding of the `jupyter_analysis.py` script as executed: the
`__main__` block runs `interactive_analysis()` and then unconditionally
prints the closing "ANALYSIS COMPLETE!" block, skipped only if the
pipeline raised. The script reads no command-line arguments. -/
def jupyterScript (env : Env) (_argv : List String) : RunResult :=
  let p := jupyterRun env
  match p.2 with
  | .error e => (p.1, .error e)
  | .ok r =>
    (p.1 ++ [.print (.banner "ANALYSIS COMPLETE!"),
             .print .epilogueComplete], .ok r)

/-- Mutation of state outside the importing module performed at import
time by a module of the repository. -/
inductive GlobalEffect where
  | warningsFilterIgnore
  | pltStyleUse (s : String)
  | snsSetPalette (s : String)
  | pltRcParamsFigsize (w h : Nat)
deriving DecidableEq, Repr

/-- Module-level external-state mutations of `main.py`: only
`warnings.filterwarnings` on line 17. -/
def main_module_effects : List GlobalEffect := [.warningsFilterIgnore]

/-- Module-level external-state mutations of `jupyter_analysis.py`:
`warnings.filterwarnings` on line 17 plus the plotting configuration on
lines 20 to 22. -/
def jupyter_module_effects : List GlobalEffect :=
  [.warningsFilterIgnore, .pltStyleUse "seaborn-v0_8",
   .snsSetPalette "husl", .pltRcParamsFigsize 12 8]

/-- Plot-style configuration effects: the matplotlib and seaborn global
settings touched by `jupyter_analysis.py` at import time. -/
def isPlotStyleConfig : GlobalEffect → Prop
  | .pltStyleUse _ => True
  | .snsSetPalette _ => True
  | .pltRcParamsFigsize _ _ => True
  | .warningsFilterIgnore => False

instance : DecidablePred isPlotStyleConfig := fun g => by
  cases g <;> simp [isPlotStyleConfig] <;> infer_instance

/-- Stage calls of a trace, in order, with prints and file events
dropped. -/
def stagesOf (tr : List Event) : List Stage :=
  tr.filterMap fun e =>
    match e with
    | .stage s => some s
    | _ => none

/-- Pipeline phase of an event, when it belongs to one: 1 load, 2 clean,
3 explore, 4 engineer features, 5 train and evaluate models, 6 report
insights. Banners and file events carry no phase. -/
def phaseE : Event → Option Nat
  | .stage .loadData => some 1
  | .stage .getDataInfo => some 1
  | .stage .getBasicStats => some 1
  | .stage .cleanData => some 2
  | .stage .getCleanedSummary => some 2
  | .stage .generateComprehensiveReport => some 3
  | .stage .createFeatures => some 4
  | .stage (.prepareForMl _) => some 4
  | .stage .trainModels => some 5
  | .stage .evaluateModels => some 5
  | .stage .plotModelComparison => some 5
  | .stage .plotPredictions => some 5
  | .stage .getFeatureImportance => some 5
  | .stage (.hyperparameterTuning _) => some 5
  | .print (.datasetSummary _ _ _ _) => some 6
  | .print (.bestModelReport _) => some 6
  | .print (.bestYear _) => some 6
  | .print (.accuracyLine _) => some 6
  | .print (.datasetOverview _ _ _ _) => some 6
  | .print (.temporalInsights _ _) => some 6
  | .print (.genreInsights _) => some 6
  | .print (.modelPerformance _) => some 6
  | .print .recommendations => some 6
  | _ => none

/-- Benign external effect: a console print, an in-process library call,
or a read of the one hard-coded CSV path; in particular not a file write
and not a read of any other path. -/
def benignEvent : Event → Prop
  | .fileWrite _ => False
  | .fileRead p => p = csvPath
  | .stage _ => True
  | .print _ => True

/-- Best-year print block of `main`: emitted exactly when the EDA report
carries a yearly-ratings table on which the argmax lookup succeeds. -/
def bestYearPrints (eda : EdaReport) : List Event :=
  match eda.yearly_ratings with
  | none => []
  | some tbl =>
    match firstMaxBy (fun r => r.mean) tbl with
    | none => []
    | some yr => [.print (.bestYear yr)]

/-- Temporal-insights print block of `interactive_analysis`. -/
def temporalPrints (eda : EdaReport) : List Event :=
  match eda.yearly_ratings with
  | none => []
  | some tbl =>
    match firstMaxBy (fun r => r.mean) tbl,
          firstMaxBy (fun r => (r.count : ℚ)) tbl with
    | some a, some b => [.print (.temporalInsights a b)]
    | _, _ => []

/-- Genre-insights print block of `interactive_analysis`. -/
def genrePrints (eda : EdaReport) : List Event :=
  match eda.genre_analysis with
  | some (g :: _) => [.print (.genreInsights g)]
  | _ => []

/-- Events of a successful `main` run up to and including the best-model
report print. -/
def mainTraceCore (summ : CleanSummary) (dfc : DataFrame) (x : Features)
    (y : Target) (best : ModelRow) : List Event :=
  [.print (.banner "MOVIE RATING PREDICTION SYSTEM"),
   .print (.banner "1. LOADING DATA..."),
   .fileRead csvPath, .stage .loadData,
   .stage .getDataInfo,
   .stage .getBasicStats,
   .print (.banner "2. CLEANING DATA..."), .stage .cleanData,
   .stage .getCleanedSummary,
   .print (.cleaningSummary summ),
   .print (.banner "3. EXPLORATORY DATA ANALYSIS..."),
   .stage .generateComprehensiveReport,
   .print (.banner "4. FEATURE ENGINEERING..."), .stage .createFeatures,
   .stage (.prepareForMl "rating"),
   .print (.banner "5. MACHINE LEARNING MODELING..."), .stage .trainModels,
   .stage .evaluateModels, .stage .plotModelComparison,
   .stage .plotPredictions,
   .stage .getFeatureImportance,
   .print (.banner "6. HYPERPARAMETER TUNING..."),
   .stage (.hyperparameterTuning "Random Forest"),
   .stage (.hyperparameterTuning "Gradient Boosting"),
   .stage .evaluateModels,
   .print (.banner "FINAL ANALYSIS REPORT"),
   .print (.datasetSummary dfc.nrows x.ncols y.mean y.std),
   .print (.bestModelReport best)]

/-- Dictionary returned by a successful `main` run. -/
def mainDict (dfc : DataFrame) (x : Features) (y : Target)
    (tbl : List ModelRow) (eda : EdaReport) (s : PredState) :
    List (String × ResVal) :=
  [("cleaned_data", .dataV dfc),
   ("features", .featV x),
   ("target", .targV y),
   ("model_results", .tableV tbl),
   ("eda_report", .edaV eda),
   ("predictor", .predV s)]

/-- Events of a successful `interactive_analysis` run up to and including
the dataset-overview print. -/
def jTraceCore (dfc : DataFrame) : List Event :=
  [.print (.banner "INTERACTIVE MOVIE RATING ANALYSIS"),
   .print (.banner "Loading and exploring data..."),
   .fileRead csvPath, .stage .loadData,
   .stage .getDataInfo,
   .print (.banner "Cleaning and preprocessing data..."), .stage .cleanData,
   .print (.cleanedShape dfc),
   .print (.banner "Performing Exploratory Data Analysis..."),
   .stage .generateComprehensiveReport,
   .print (.banner "Building and evaluating machine learning models..."),
   .stage .createFeatures,
   .stage (.prepareForMl "rating"),
   .stage .trainModels,
   .stage .evaluateModels, .stage .plotModelComparison,
   .stage .plotPredictions,
   .stage .getFeatureImportance,
   .print (.banner "KEY INSIGHTS AND RECOMMENDATIONS"),
   .print (.datasetOverview dfc.nrows dfc.rating_mean dfc.rating_min
             dfc.rating_max)]

/-- Dictionary returned by a successful `interactive_analysis` run. -/
def jDict (dfc : DataFrame) (eda : EdaReport) (tbl : List ModelRow)
    (s : PredState) (imp : ImportanceDf) : List (String × ResVal) :=
  [("data", .dataV dfc),
   ("eda_report", .edaV eda),
   ("model_results", .tableV tbl),
   ("predictor", .predV s),
   ("feature_importance", .impV imp)]

theorem firstMaxBy_isSome (f : YearRow → ℚ) (r : YearRow) (rs : List YearRow) :
    (firstMaxBy f (r :: rs)).isSome := by
  cases h : firstMaxBy f rs <;> simp [firstMaxBy, h]

theorem mainRun_success {env : Env} {df dfc dff : DataFrame}
    {summ : CleanSummary} {eda : EdaReport} {x : Features} {y : Target}
    {s0 s1 s2 : PredState} {imp : ImportanceDf} {best : ModelRow}
    {rest : List ModelRow}
    (hl : env.load_data = .ok (some df))
    (hi : env.get_data_info = .ok ())
    (hb : env.get_basic_stats = .ok ())
    (hc : env.clean_data df = .ok dfc)
    (hs : env.get_cleaned_summary df = .ok summ)
    (he : env.generate_comprehensive_report dfc = .ok eda)
    (hf : env.create_features dfc = .ok dff)
    (hp : env.prepare_for_ml dfc "rating" = .ok (x, y))
    (ht : env.train_models x y = .ok s0)
    (hpc : env.plot_model_comparison s0 = .ok ())
    (hpp : env.plot_predictions s0 = .ok ())
    (hfi : env.get_feature_importance s0 = .ok imp)
    (h1 : env.hyperparameter_tuning "Random Forest" s0 = .ok s1)
    (h2 : env.hyperparameter_tuning "Gradient Boosting" s1 = .ok s2)
    (hbest : evaluate_models s2 = best :: rest)
    (hyr : ∀ tbl, eda.yearly_ratings = some tbl → tbl ≠ []) :
    mainRun env =
      (mainTraceCore summ dfc x y best ++ bestYearPrints eda ++
         [.print (.accuracyLine best),
          .print (.banner "ANALYSIS COMPLETED SUCCESSFULLY!")],
       .ok (some (mainDict dfc x y (best :: rest) eda s2))) := by
  rcases hy : eda.yearly_ratings with _ | tbl
  · simp [mainRun, emitCall, hl, hi, hb, hc, hs, he, hf, hp, ht, hpc, hpp,
      hfi, h1, h2, hbest, hy, mainTraceCore, bestYearPrints, mainDict]
  · have hne := hyr tbl hy
    rcases tbl with _ | ⟨r, rs⟩
    · exact absurd rfl hne
    · have hsome := firstMaxBy_isSome (fun r => r.mean) r rs
      rcases hfm : firstMaxBy (fun r => r.mean) (r :: rs) with _ | yr
      · rw [hfm] at hsome; simp at hsome
      · simp [mainRun, emitCall, hl, hi, hb, hc, hs, he, hf, hp, ht, hpc,
          hpp, hfi, h1, h2, hbest, hy, hfm, mainTraceCore, bestYearPrints,
          mainDict]

theorem jupyterRun_success {env : Env} {df dfc dff : DataFrame}
    {eda : EdaReport} {x : Features} {y : Target} {s0 : PredState}
    {imp : ImportanceDf} {best : ModelRow} {rest : List ModelRow}
    (hl : env.load_data = .ok (some df))
    (hi : env.get_data_info = .ok ())
    (hc : env.clean_data df = .ok dfc)
    (he : env.generate_comprehensive_report dfc = .ok eda)
    (hf : env.create_features dfc = .ok dff)
    (hp : env.prepare_for_ml dfc "rating" = .ok (x, y))
    (ht : env.train_models x y = .ok s0)
    (hpc : env.plot_model_comparison s0 = .ok ())
    (hpp : env.plot_predictions s0 = .ok ())
    (hfi : env.get_feature_importance s0 = .ok imp)
    (hbest : evaluate_models s0 = best :: rest)
    (hyr : ∀ tbl, eda.yearly_ratings = some tbl → tbl ≠ []) :
    jupyterRun env =
      (jTraceCore dfc ++ temporalPrints eda ++ genrePrints eda ++
         [.print (.modelPerformance best), .print .recommendations],
       .ok (some (jDict dfc eda (best :: rest) s0 imp))) := by
  rcases hy : eda.yearly_ratings with _ | tbl
  · rcases hg : eda.genre_analysis with _ | ⟨_ | ⟨g, gs⟩⟩ <;>
      simp [jupyterRun, emitCall, hl, hi, hc, he, hf, hp, ht, hpc, hpp, hfi,
        hbest, hy, hg, prepare_for_ml_default_target, jTraceCore,
        temporalPrints, genrePrints, jDict]
  · have hne := hyr tbl hy
    rcases tbl with _ | ⟨r, rs⟩
    · exact absurd rfl hne
    · have hsome1 := firstMaxBy_isSome (fun r => r.mean) r rs
      have hsome2 := firstMaxBy_isSome (fun r => (r.count : ℚ)) r rs
      rcases hfm1 : firstMaxBy (fun r => r.mean) (r :: rs) with _ | a
      · rw [hfm1] at hsome1; simp at hsome1
      rcases hfm2 : firstMaxBy (fun r => (r.count : ℚ)) (r :: rs) with _ | b
      · rw [hfm2] at hsome2; simp at hsome2
      rcases hg : eda.genre_analysis with _ | ⟨_ | ⟨g, gs⟩⟩ <;>
        simp [jupyterRun, emitCall, hl, hi, hc, he, hf, hp, ht, hpc, hpp,
          hfi, hbest, hy, hfm1, hfm2, hg, prepare_for_ml_default_target,
          jTraceCore, temporalPrints, genrePrints, jDict]

instance : DecidablePred benignEvent := fun ev => by
  cases ev <;> simp [benignEvent] <;> infer_instance

theorem benign_emitCall {α : Type} {pre : List Event} {r : Except Exc α}
    {k : α → RunResult}
    (hpre : ∀ ev ∈ pre, benignEvent ev)
    (hk : ∀ a, ∀ ev ∈ (k a).1, benignEvent ev) :
    ∀ ev ∈ (emitCall pre r k).1, benignEvent ev := by
  cases r with
  | ok a =>
    intro ev hev
    rcases List.mem_append.mp (by simpa [emitCall] using hev) with h | h
    · exact hpre ev h
    · exact hk a ev h
  | error e =>
    intro ev hev
    exact hpre ev (by simpa [emitCall] using hev)

theorem benign_mainRun (env : Env) : ∀ ev ∈ (mainRun env).1, benignEvent ev := by
  unfold mainRun
  refine benign_emitCall (by intro ev hev; fin_cases hev <;> simp [benignEvent]) ?_
  rintro (_ | df)
  · intro ev hev; fin_cases hev <;> simp [benignEvent]
  refine benign_emitCall (by intro ev hev; fin_cases hev <;> simp [benignEvent]) ?_
  intro _
  refine benign_emitCall (by intro ev hev; fin_cases hev <;> simp [benignEvent]) ?_
  intro _
  refine benign_emitCall (by intro ev hev; fin_cases hev <;> simp [benignEvent]) ?_
  intro dfc
  refine benign_emitCall (by intro ev hev; fin_cases hev <;> simp [benignEvent]) ?_
  intro summ
  refine benign_emitCall (by intro ev hev; fin_cases hev <;> simp [benignEvent]) ?_
  intro eda
  refine benign_emitCall (by intro ev hev; fin_cases hev <;> simp [benignEvent]) ?_
  intro _dff
  refine benign_emitCall (by intro ev hev; fin_cases hev <;> simp [benignEvent]) ?_
  intro xy
  refine benign_emitCall (by intro ev hev; fin_cases hev <;> simp [benignEvent]) ?_
  intro s0
  refine benign_emitCall (by intro ev hev; fin_cases hev <;> simp [benignEvent]) ?_
  intro _
  refine benign_emitCall (by intro ev hev; fin_cases hev <;> simp [benignEvent]) ?_
  intro _
  refine benign_emitCall (by intro ev hev; fin_cases hev <;> simp [benignEvent]) ?_
  intro _imp
  refine benign_emitCall (by intro ev hev; fin_cases hev <;> simp [benignEvent]) ?_
  intro s1
  refine benign_emitCall (by intro ev hev; fin_cases hev <;> simp [benignEvent]) ?_
  intro s2
  rcases hE : evaluate_models s2 with _ | ⟨best, rest⟩
  · simp only [hE]; intro ev hev; fin_cases hev <;> simp [benignEvent]
  · rcases hy : eda.yearly_ratings with _ | tbl
    · simp only [hE, hy]; intro ev hev; fin_cases hev <;> simp [benignEvent]
    · rcases hfm : firstMaxBy (fun r => r.mean) tbl with _ | yr
      · simp only [hE, hy, hfm]
        intro ev hev; fin_cases hev <;> simp [benignEvent]
      · simp only [hE, hy, hfm]
        intro ev hev; fin_cases hev <;> simp [benignEvent]

theorem benign_jupyterRun (env : Env) :
    ∀ ev ∈ (jupyterRun env).1, benignEvent ev := by
  unfold jupyterRun
  refine benign_emitCall (by intro ev hev; fin_cases hev <;> simp [benignEvent]) ?_
  rintro (_ | df)
  · intro ev hev; fin_cases hev <;> simp [benignEvent]
  refine benign_emitCall (by intro ev hev; fin_cases hev <;> simp [benignEvent]) ?_
  intro _
  refine benign_emitCall (by intro ev hev; fin_cases hev <;> simp [benignEvent]) ?_
  intro dfc
  refine benign_emitCall (by intro ev hev; fin_cases hev <;> simp [benignEvent]) ?_
  intro eda
  refine benign_emitCall (by intro ev hev; fin_cases hev <;> simp [benignEvent]) ?_
  intro _dff
  refine benign_emitCall (by intro ev hev; fin_cases hev <;> simp [benignEvent]) ?_
  intro xy
  refine benign_emitCall (by intro ev hev; fin_cases hev <;> simp [benignEvent]) ?_
  intro s0
  refine benign_emitCall (by intro ev hev; fin_cases hev <;> simp [benignEvent]) ?_
  intro _
  refine benign_emitCall (by intro ev hev; fin_cases hev <;> simp [benignEvent]) ?_
  intro _
  refine benign_emitCall (by intro ev hev; fin_cases hev <;> simp [benignEvent]) ?_
  intro imp
  rcases hy : eda.yearly_ratings with _ | tbl
  · rcases hg : eda.genre_analysis with _ | ⟨_ | ⟨g, gs⟩⟩ <;>
      rcases hE : evaluate_models s0 with _ | ⟨best, rest⟩ <;>
      · simp only [hy, hg, hE]; intro ev hev; fin_cases hev <;> simp [benignEvent]
  · rcases hfm1 : firstMaxBy (fun r => r.mean) tbl with _ | a
    · rcases hfm2 : firstMaxBy (fun r => (r.count : ℚ)) tbl with _ | b <;>
        · simp only [hy, hfm1, hfm2]
          intro ev hev; fin_cases hev <;> simp [benignEvent]
    · rcases hfm2 : firstMaxBy (fun r => (r.count : ℚ)) tbl with _ | b
      · simp only [hy, hfm1, hfm2]
        intro ev hev; fin_cases hev <;> simp [benignEvent]
      · rcases hg : eda.genre_analysis with _ | ⟨_ | ⟨g, gs⟩⟩ <;>
          rcases hE : evaluate_models s0 with _ | ⟨best, rest⟩ <;>
          · simp only [hy, hfm1, hfm2, hg, hE]
            intro ev hev; fin_cases hev <;> simp [benignEvent]

theorem stagesOf_bestYearPrints (eda : EdaReport) :
    stagesOf (bestYearPrints eda) = [] := by
  rcases hy : eda.yearly_ratings with _ | tbl <;> simp [bestYearPrints, hy, stagesOf]
  rcases hfm : firstMaxBy (fun r => r.mean) tbl with _ | yr <;> simp [hfm, stagesOf]

theorem stagesOf_temporalPrints (eda : EdaReport) :
    stagesOf (temporalPrints eda) = [] := by
  rcases hy : eda.yearly_ratings with _ | tbl <;> simp [temporalPrints, hy, stagesOf]
  rcases hfm1 : firstMaxBy (fun r => r.mean) tbl with _ | a <;>
    rcases hfm2 : firstMaxBy (fun r => (r.count : ℚ)) tbl with _ | b <;>
    simp [hfm1, hfm2, stagesOf]

theorem stagesOf_genrePrints (eda : EdaReport) :
    stagesOf (genrePrints eda) = [] := by
  rcases hg : eda.genre_analysis with _ | ⟨_ | ⟨g, gs⟩⟩ <;>
    simp [genrePrints, hg, stagesOf]

theorem stagesOf_append (l1 l2 : List Event) :
    stagesOf (l1 ++ l2) = stagesOf l1 ++ stagesOf l2 :=
  List.filterMap_append l1 l2 _

theorem phases_bestYearPrints (eda : EdaReport) :
    (bestYearPrints eda).filterMap phaseE = [] ∨
      (bestYearPrints eda).filterMap phaseE = [6] := by
  rcases hy : eda.yearly_ratings with _ | tbl
  · left; simp [bestYearPrints, hy]
  · rcases hfm : firstMaxBy (fun r => r.mean) tbl with _ | yr
    · left; simp [bestYearPrints, hy, hfm]
    · right; simp [bestYearPrints, hy, hfm, phaseE]

theorem phases_temporalPrints (eda : EdaReport) :
    (temporalPrints eda).filterMap phaseE = [] ∨
      (temporalPrints eda).filterMap phaseE = [6] := by
  rcases hy : eda.yearly_ratings with _ | tbl
  · left; simp [temporalPrints, hy]
  · rcases hfm1 : firstMaxBy (fun r => r.mean) tbl with _ | a <;>
      rcases hfm2 : firstMaxBy (fun r => (r.count : ℚ)) tbl with _ | b
    · left; simp [temporalPrints, hy, hfm1, hfm2]
    · left; simp [temporalPrints, hy, hfm1, hfm2]
    · left; simp [temporalPrints, hy, hfm1, hfm2]
    · right; simp [temporalPrints, hy, hfm1, hfm2, phaseE]

theorem phases_genrePrints (eda : EdaReport) :
    (genrePrints eda).filterMap phaseE = [] ∨
      (genrePrints eda).filterMap phaseE = [6] := by
  rcases hg : eda.genre_analysis with _ | ⟨_ | ⟨g, gs⟩⟩
  · left; simp [genrePrints, hg]
  · left; simp [genrePrints, hg]
  · right; simp [genrePrints, hg, phaseE]

/-- Concrete raw dataframe used by the example environments; the rating
mean is the raw rational 29/5. -/
def dfEx : DataFrame := ⟨150, ⟨29, 5, by decide, by decide⟩, 1, 10⟩

/-- Concrete cleaned dataframe used by the example environments. -/
def dfcEx : DataFrame :=
  ⟨120, ⟨57, 10, by decide, by decide⟩, 1, ⟨19, 2, by decide, by decide⟩⟩

/-- Concrete cleaning summary used by the example environments. -/
def summEx : CleanSummary := ⟨(120, 8), 0⟩

/-- Concrete EDA report used by the example environments. -/
def edaEx : EdaReport :=
  ⟨some [⟨2001, 8, 5⟩, ⟨1999, 7, 12⟩], some ["Drama", "Action"]⟩

/-- Concrete feature matrix used by the example environments. -/
def xEx : Features := ⟨12⟩

/-- Concrete target vector used by the example environments. -/
def yEx : Target :=
  ⟨⟨57, 10, by decide, by decide⟩, ⟨11, 10, by decide, by decide⟩⟩

/-- Concrete linear-regression evaluation row (test R² one half). -/
def rowLR : ModelRow :=
  ⟨"Linear Regression", ⟨1, 2, by decide, by decide⟩, 1,
   ⟨3, 4, by decide, by decide⟩⟩

/-- Concrete random-forest evaluation row (test R² seven tenths). -/
def rowRF : ModelRow :=
  ⟨"Random Forest", ⟨7, 10, by decide, by decide⟩,
   ⟨9, 10, by decide, by decide⟩, ⟨7, 10, by decide, by decide⟩⟩

/-- Concrete gradient-boosting evaluation row (test R² three fifths). -/
def rowGB : ModelRow :=
  ⟨"Gradient Boosting", ⟨3, 5, by decide, by decide⟩, 1,
   ⟨4, 5, by decide, by decide⟩⟩

/-- Concrete predictor state after training, used by the example
environments. -/
def predEx : PredState := [rowLR, rowRF, rowGB]

/-- Concrete feature-importance handle used by the example
environments. -/
def impEx : ImportanceDf := ⟨1⟩

/-- Environment in which every library call succeeds and tuning leaves
the fitted models unchanged. -/
def envOk : Env :=
  ⟨.ok (some dfEx), .ok (), .ok (),
   fun _ => .ok dfcEx, fun _ => .ok summEx, fun _ => .ok edaEx,
   fun _ => .ok dfcEx, fun _ _ => .ok (xEx, yEx), fun _ _ => .ok predEx,
   fun _ => .ok (), fun _ => .ok (), fun _ => .ok impEx,
   fun _ s => .ok s⟩

/-- Environment in which the CSV is missing: the loader returns null. -/
def envNoFile : Env := { envOk with load_data := .ok none }

/-- Environment in which the loader itself raises. -/
def envLoadErr : Env := { envOk with load_data := .error (.raised "io error") }

/-- Environment in which the cleaning stage raises. -/
def envCleanErr : Env :=
  { envOk with clean_data := fun _ => .error (.raised "boom") }

/-- Environment in which hyperparameter tuning improves every model by a
full point of test R². -/
def envTune : Env :=
  { envOk with
    hyperparameter_tuning := fun _ s =>
      .ok (s.map fun r => ⟨r.model, r.testR2 + 1, r.testRMSE, r.testMAE⟩) }

/-- Table entry of the model-results key of a returned dictionary, when
the run returned one. -/
def modelResultsOf (r : RunResult) : Option (List ModelRow) :=
  match r.2 with
  | .ok (some d) =>
    match d.lookup "model_results" with
    | some (.tableV t) => some t
    | _ => none
  | _ => none

/-- C1: the only handled failure in either entry script is a failed data
load. When the loader returns a null dataframe, each pipeline function
prints its failure message and returns early with `None`, having run no
stage beyond the load itself; no other branch of either script inspects
an error. -/
theorem C1_only_load_failure_handled (env : Env)
    (h : env.load_data = .ok none) :
    mainRun env =
      ([.print (.banner "MOVIE RATING PREDICTION SYSTEM"),
        .print (.banner "1. LOADING DATA..."),
        .fileRead csvPath, .stage .loadData,
        .print (.loadFailed "Failed to load data. Please check the file path.")],
       .ok none) ∧
    jupyterRun env =
      ([.print (.banner "INTERACTIVE MOVIE RATING ANALYSIS"),
        .print (.banner "Loading and exploring data..."),
        .fileRead csvPath, .stage .loadData,
        .print (.loadFailed "Error: Could not load data file")],
       .ok none) ∧
    stagesOf (mainRun env).1 = [.loadData] ∧
    stagesOf (jupyterRun env).1 = [.loadData] := by
  refine ⟨?_, ?_, ?_, ?_⟩ <;>
    simp [mainRun, jupyterRun, emitCall, h, stagesOf]

theorem C1_witness :
    envNoFile.load_data = .ok none ∧
      stagesOf (mainRun envNoFile).1 = [.loadData] :=
  ⟨rfl, (C1_only_load_failure_handled envNoFile rfl).2.2.1⟩

/-- C2: every evaluation table produced by `evaluate_models` is a
permutation of the predictor state ranked monotonically by test R² in
descending order, so the row at index 0 has the highest test R² of all
rows. -/
theorem C2_results_ranked_by_test_r2 (s : PredState) :
    List.Pairwise byDescR2 (evaluate_models s) ∧
    (evaluate_models s).Perm s ∧
    ∀ r ∈ evaluate_models s, r.testR2 ≤ (evaluate_models s).headI.testR2 := by
  refine ⟨List.sorted_insertionSort byDescR2 s,
    List.perm_insertionSort byDescR2 s, ?_⟩
  intro r hr
  rcases hE : evaluate_models s with _ | ⟨a, t⟩
  · rw [hE] at hr; simp at hr
  · rw [hE] at hr
    have hs : List.Sorted byDescR2 (a :: t) := by
      rw [← hE]
      exact List.sorted_insertionSort byDescR2 s
    simp only [List.headI]
    rcases List.mem_cons.mp hr with rfl | hr
    · exact le_refl _
    · exact List.rel_of_sorted_cons hs r hr

theorem C2_witness :
    rowLR.testR2 ≤ (evaluate_models predEx).headI.testR2 :=
  (C2_results_ranked_by_test_r2 predEx).2.2 _ (by decide)

/-- C5 counterexample: `jupyter_analysis.py` mutates external state when
imported, beyond the warnings filter — it sets the matplotlib style, the
seaborn palette and the figure-size rcParam on its lines 20 to 22, so the
claim that the warnings filter is the only such external mutation fails
on that module. -/
theorem C5_counterexample :
    ¬ ∀ e ∈ jupyter_module_effects, e = GlobalEffect.warningsFilterIgnore := by
  decide

/-- C5 amended: the only module-level external-state mutation of
`main.py` is the warnings filter, and every module-level external-state
mutation of `jupyter_analysis.py` is either the warnings filter or a
plot-style configuration (matplotlib style, seaborn palette, figure-size
rcParam). -/
theorem C5_module_effects_amended :
    (∀ e ∈ main_module_effects, e = GlobalEffect.warningsFilterIgnore) ∧
    (∀ e ∈ jupyter_module_effects,
      e = GlobalEffect.warningsFilterIgnore ∨ isPlotStyleConfig e) := by
  decide

theorem C5_witness :
    GlobalEffect.pltStyleUse "seaborn-v0_8" = GlobalEffect.warningsFilterIgnore ∨
      isPlotStyleConfig (GlobalEffect.pltStyleUse "seaborn-v0_8") :=
  C5_module_effects_amended.2 _ (by decide)

/-- C3: in every successful run of `main`, hyperparameter tuning is
performed for the Random Forest and the Gradient Boosting models after
the first evaluation, the models are then re-evaluated, and the
best-model metrics printed in the final report are the head row of that
post-tuning evaluation of the tuned predictor state `s2`. -/
theorem C3_tuning_before_final_report (env : Env) {df dfc dff : DataFrame}
    {summ : CleanSummary} {eda : EdaReport} {x : Features} {y : Target}
    {s0 s1 s2 : PredState} {imp : ImportanceDf} {best : ModelRow}
    {rest : List ModelRow}
    (hl : env.load_data = .ok (some df))
    (hi : env.get_data_info = .ok ())
    (hb : env.get_basic_stats = .ok ())
    (hc : env.clean_data df = .ok dfc)
    (hs : env.get_cleaned_summary df = .ok summ)
    (he : env.generate_comprehensive_report dfc = .ok eda)
    (hf : env.create_features dfc = .ok dff)
    (hp : env.prepare_for_ml dfc "rating" = .ok (x, y))
    (ht : env.train_models x y = .ok s0)
    (hpc : env.plot_model_comparison s0 = .ok ())
    (hpp : env.plot_predictions s0 = .ok ())
    (hfi : env.get_feature_importance s0 = .ok imp)
    (h1 : env.hyperparameter_tuning "Random Forest" s0 = .ok s1)
    (h2 : env.hyperparameter_tuning "Gradient Boosting" s1 = .ok s2)
    (hbest : evaluate_models s2 = best :: rest)
    (hyr : ∀ tbl, eda.yearly_ratings = some tbl → tbl ≠ []) :
    [Stage.evaluateModels, .hyperparameterTuning "Random Forest",
     .hyperparameterTuning "Gradient Boosting", .evaluateModels].Sublist
        (stagesOf (mainRun env).1) ∧
    Event.print (.bestModelReport best) ∈ (mainRun env).1 := by
  rw [mainRun_success hl hi hb hc hs he hf hp ht hpc hpp hfi h1 h2 hbest hyr]
  constructor
  · simp only [stagesOf_append, stagesOf_bestYearPrints]
    simp [stagesOf, mainTraceCore]
    decide
  · simp [mainTraceCore]

theorem C3_witness :
    Event.print (Msg.bestModelReport rowRF) ∈ (mainRun envOk).1 :=
  (C3_tuning_before_final_report envOk rfl rfl rfl rfl rfl rfl rfl rfl rfl
      rfl rfl rfl rfl rfl
      (show evaluate_models predEx = rowRF :: [rowGB, rowLR] by decide)
      (by intro tbl h; simp [edaEx] at h; subst h; decide)).2

/-- C4: every successful run of either entry script executes the
pipeline phases in the order load, clean, explore, engineer features,
train and evaluate models, report insights — the phase labels of its
event trace are monotonically nondecreasing and every phase occurs. -/
theorem C4_stage_order (env : Env) {df dfc dff : DataFrame}
    {summ : CleanSummary} {eda : EdaReport} {x : Features} {y : Target}
    {s0 s1 s2 : PredState} {imp : ImportanceDf} {best best0 : ModelRow}
    {rest rest0 : List ModelRow}
    (hl : env.load_data = .ok (some df))
    (hi : env.get_data_info = .ok ())
    (hb : env.get_basic_stats = .ok ())
    (hc : env.clean_data df = .ok dfc)
    (hs : env.get_cleaned_summary df = .ok summ)
    (he : env.generate_comprehensive_report dfc = .ok eda)
    (hf : env.create_features dfc = .ok dff)
    (hp : env.prepare_for_ml dfc "rating" = .ok (x, y))
    (ht : env.train_models x y = .ok s0)
    (hpc : env.plot_model_comparison s0 = .ok ())
    (hpp : env.plot_predictions s0 = .ok ())
    (hfi : env.get_feature_importance s0 = .ok imp)
    (h1 : env.hyperparameter_tuning "Random Forest" s0 = .ok s1)
    (h2 : env.hyperparameter_tuning "Gradient Boosting" s1 = .ok s2)
    (hbest : evaluate_models s2 = best :: rest)
    (hbest0 : evaluate_models s0 = best0 :: rest0)
    (hyr : ∀ tbl, eda.yearly_ratings = some tbl → tbl ≠ []) :
    ((mainRun env).1.filterMap phaseE).Sorted (· ≤ ·) ∧
    (∀ p ∈ [1, 2, 3, 4, 5, 6], p ∈ (mainRun env).1.filterMap phaseE) ∧
    ((jupyterRun env).1.filterMap phaseE).Sorted (· ≤ ·) ∧
    (∀ p ∈ [1, 2, 3, 4, 5, 6], p ∈ (jupyterRun env).1.filterMap phaseE) := by
  rw [mainRun_success hl hi hb hc hs he hf hp ht hpc hpp hfi h1 h2 hbest hyr,
    jupyterRun_success hl hi hc he hf hp ht hpc hpp hfi hbest0 hyr]
  refine ⟨?_, ?_, ?_, ?_⟩
  · simp only [List.filterMap_append]
    rcases phases_bestYearPrints eda with h | h <;>
      · rw [h]; simp [mainTraceCore, phaseE]; try decide
  · simp only [List.filterMap_append]
    rcases phases_bestYearPrints eda with h | h <;>
      · rw [h]; simp [mainTraceCore, phaseE]; try decide
  · simp only [List.filterMap_append]
    rcases phases_temporalPrints eda with h | h <;>
      rcases phases_genrePrints eda with h2 | h2 <;>
      · rw [h, h2]; simp [jTraceCore, phaseE]; try decide
  · simp only [List.filterMap_append]
    rcases phases_temporalPrints eda with h | h <;>
      rcases phases_genrePrints eda with h2 | h2 <;>
      · rw [h, h2]; simp [jTraceCore, phaseE]; try decide

theorem C4_witness :
    6 ∈ (mainRun envOk).1.filterMap phaseE :=
  (C4_stage_order envOk rfl rfl rfl rfl rfl rfl rfl rfl rfl rfl rfl rfl rfl
      rfl (show evaluate_models predEx = rowRF :: [rowGB, rowLR] by decide)
      (show evaluate_models predEx = rowRF :: [rowGB, rowLR] by decide)
      (by intro tbl h; simp [edaEx] at h; subst h; decide)).2.1 6 (by decide)

/-- C6: for every run of either entry script, every event of the trace
is benign — a console print, a pipeline-library call, or a read of the
single hard-coded CSV path, never a file write or a read of another
path — and the run does not depend on the command-line arguments. -/
theorem C6_external_interface (env : Env) (argv : List String) :
    (∀ ev ∈ (mainScript env argv).1, benignEvent ev) ∧
    (∀ ev ∈ (jupyterScript env argv).1, benignEvent ev) ∧
    ∀ argv2, mainScript env argv = mainScript env argv2 ∧
      jupyterScript env argv = jupyterScript env argv2 := by
  refine ⟨?_, ?_, fun argv2 => ⟨rfl, rfl⟩⟩
  · intro ev hev
    rcases h : (mainRun env).2 with e | r
    · simp only [mainScript, h] at hev
      exact benign_mainRun env ev hev
    · simp only [mainScript, h, List.mem_append] at hev
      rcases hev with hev | hev
      · exact benign_mainRun env ev hev
      · fin_cases hev <;> simp [benignEvent]
  · intro ev hev
    rcases h : (jupyterRun env).2 with e | r
    · simp only [jupyterScript, h] at hev
      exact benign_jupyterRun env ev hev
    · simp only [jupyterScript, h, List.mem_append] at hev
      rcases hev with hev | hev
      · exact benign_jupyterRun env ev hev
      · fin_cases hev <;> simp [benignEvent]

theorem C6_witness : benignEvent (Event.fileRead csvPath) :=
  (C6_external_interface envOk []).1 (Event.fileRead csvPath) (by decide)

/-- C9: when the data load returns null, each pipeline function returns
`None` instead of its results dictionary, yet the `__main__` epilogue of
each script still runs and prints its closing text as if the run had
succeeded. -/
theorem C9_epilogue_after_failed_load (env : Env) (argv : List String)
    (h : env.load_data = .ok none) :
    (mainScript env argv).2 = .ok none ∧
    Event.print Msg.epilogueSuggestions ∈ (mainScript env argv).1 ∧
    Event.print (Msg.banner "ADDITIONAL ANALYSIS SUGGESTIONS") ∈
      (mainScript env argv).1 ∧
    (jupyterScript env argv).2 = .ok none ∧
    Event.print Msg.epilogueComplete ∈ (jupyterScript env argv).1 ∧
    Event.print (Msg.banner "ANALYSIS COMPLETE!") ∈ (jupyterScript env argv).1 := by
  refine ⟨?_, ?_, ?_, ?_, ?_, ?_⟩ <;>
    simp [mainScript, jupyterScript, mainRun, jupyterRun, emitCall, h]

theorem C9_witness : (mainScript envNoFile []).2 = .ok none :=
  (C9_epilogue_after_failed_load envNoFile [] rfl).1

/-- C7: no stage of either entry script is wrapped in an exception
handler. Whichever library call is the first to raise — in `main`: the
loader, the info and stats reporters, the cleaner, the summary, the EDA
report, feature creation, ML preparation, training, the two plots, the
feature importance, or either tuning call; in `interactive_analysis`:
the corresponding ten calls — its exception becomes verbatim the result
of the pipeline function. -/
theorem C7_uncaught_exceptions_propagate (env : Env) (e : Exc) :
    (env.load_data = .error e →
      (mainRun env).2 = .error e ∧ (jupyterRun env).2 = .error e) ∧
    (∀ df, env.load_data = .ok (some df) → env.get_data_info = .error e →
      (mainRun env).2 = .error e ∧ (jupyterRun env).2 = .error e) ∧
    (∀ df, env.load_data = .ok (some df) → env.get_data_info = .ok () →
      env.get_basic_stats = .error e → (mainRun env).2 = .error e) ∧
    (∀ df, env.load_data = .ok (some df) → env.get_data_info = .ok () →
      env.get_basic_stats = .ok () → env.clean_data df = .error e →
      (mainRun env).2 = .error e) ∧
    (∀ df dfc, env.load_data = .ok (some df) → env.get_data_info = .ok () →
      env.get_basic_stats = .ok () → env.clean_data df = .ok dfc →
      env.get_cleaned_summary df = .error e → (mainRun env).2 = .error e) ∧
    (∀ df dfc summ, env.load_data = .ok (some df) →
      env.get_data_info = .ok () → env.get_basic_stats = .ok () →
      env.clean_data df = .ok dfc → env.get_cleaned_summary df = .ok summ →
      env.generate_comprehensive_report dfc = .error e →
      (mainRun env).2 = .error e) ∧
    (∀ df dfc summ eda, env.load_data = .ok (some df) →
      env.get_data_info = .ok () → env.get_basic_stats = .ok () →
      env.clean_data df = .ok dfc → env.get_cleaned_summary df = .ok summ →
      env.generate_comprehensive_report dfc = .ok eda →
      env.create_features dfc = .error e → (mainRun env).2 = .error e) ∧
    (∀ df dfc summ eda dff, env.load_data = .ok (some df) →
      env.get_data_info = .ok () → env.get_basic_stats = .ok () →
      env.clean_data df = .ok dfc → env.get_cleaned_summary df = .ok summ →
      env.generate_comprehensive_report dfc = .ok eda →
      env.create_features dfc = .ok dff →
      env.prepare_for_ml dfc "rating" = .error e →
      (mainRun env).2 = .error e) ∧
    (∀ df dfc summ eda dff x y, env.load_data = .ok (some df) →
      env.get_data_info = .ok () → env.get_basic_stats = .ok () →
      env.clean_data df = .ok dfc → env.get_cleaned_summary df = .ok summ →
      env.generate_comprehensive_report dfc = .ok eda →
      env.create_features dfc = .ok dff →
      env.prepare_for_ml dfc "rating" = .ok (x, y) →
      env.train_models x y = .error e → (mainRun env).2 = .error e) ∧
    (∀ df dfc summ eda dff x y s0, env.load_data = .ok (some df) →
      env.get_data_info = .ok () → env.get_basic_stats = .ok () →
      env.clean_data df = .ok dfc → env.get_cleaned_summary df = .ok summ →
      env.generate_comprehensive_report dfc = .ok eda →
      env.create_features dfc = .ok dff →
      env.prepare_for_ml dfc "rating" = .ok (x, y) →
      env.train_models x y = .ok s0 →
      env.plot_model_comparison s0 = .error e →
      (mainRun env).2 = .error e) ∧
    (∀ df dfc summ eda dff x y s0, env.load_data = .ok (some df) →
      env.get_data_info = .ok () → env.get_basic_stats = .ok () →
      env.clean_data df = .ok dfc → env.get_cleaned_summary df = .ok summ →
      env.generate_comprehensive_report dfc = .ok eda →
      env.create_features dfc = .ok dff →
      env.prepare_for_ml dfc "rating" = .ok (x, y) →
      env.train_models x y = .ok s0 →
      env.plot_model_comparison s0 = .ok () →
      env.plot_predictions s0 = .error e → (mainRun env).2 = .error e) ∧
    (∀ df dfc summ eda dff x y s0, env.load_data = .ok (some df) →
      env.get_data_info = .ok () → env.get_basic_stats = .ok () →
      env.clean_data df = .ok dfc → env.get_cleaned_summary df = .ok summ →
      env.generate_comprehensive_report dfc = .ok eda →
      env.create_features dfc = .ok dff →
      env.prepare_for_ml dfc "rating" = .ok (x, y) →
      env.train_models x y = .ok s0 →
      env.plot_model_comparison s0 = .ok () →
      env.plot_predictions s0 = .ok () →
      env.get_feature_importance s0 = .error e →
      (mainRun env).2 = .error e) ∧
    (∀ df dfc summ eda dff x y s0 imp, env.load_data = .ok (some df) →
      env.get_data_info = .ok () → env.get_basic_stats = .ok () →
      env.clean_data df = .ok dfc → env.get_cleaned_summary df = .ok summ →
      env.generate_comprehensive_report dfc = .ok eda →
      env.create_features dfc = .ok dff →
      env.prepare_for_ml dfc "rating" = .ok (x, y) →
      env.train_models x y = .ok s0 →
      env.plot_model_comparison s0 = .ok () →
      env.plot_predictions s0 = .ok () →
      env.get_feature_importance s0 = .ok imp →
      env.hyperparameter_tuning "Random Forest" s0 = .error e →
      (mainRun env).2 = .error e) ∧
    (∀ df dfc summ eda dff x y s0 imp s1, env.load_data = .ok (some df) →
      env.get_data_info = .ok () → env.get_basic_stats = .ok () →
      env.clean_data df = .ok dfc → env.get_cleaned_summary df = .ok summ →
      env.generate_comprehensive_report dfc = .ok eda →
      env.create_features dfc = .ok dff →
      env.prepare_for_ml dfc "rating" = .ok (x, y) →
      env.train_models x y = .ok s0 →
      env.plot_model_comparison s0 = .ok () →
      env.plot_predictions s0 = .ok () →
      env.get_feature_importance s0 = .ok imp →
      env.hyperparameter_tuning "Random Forest" s0 = .ok s1 →
      env.hyperparameter_tuning "Gradient Boosting" s1 = .error e →
      (mainRun env).2 = .error e) ∧
    (∀ df, env.load_data = .ok (some df) → env.get_data_info = .ok () →
      env.clean_data df = .error e → (jupyterRun env).2 = .error e) ∧
    (∀ df dfc, env.load_data = .ok (some df) → env.get_data_info = .ok () →
      env.clean_data df = .ok dfc →
      env.generate_comprehensive_report dfc = .error e →
      (jupyterRun env).2 = .error e) ∧
    (∀ df dfc eda, env.load_data = .ok (some df) →
      env.get_data_info = .ok () → env.clean_data df = .ok dfc →
      env.generate_comprehensive_report dfc = .ok eda →
      env.create_features dfc = .error e → (jupyterRun env).2 = .error e) ∧
    (∀ df dfc eda dff, env.load_data = .ok (some df) →
      env.get_data_info = .ok () → env.clean_data df = .ok dfc →
      env.generate_comprehensive_report dfc = .ok eda →
      env.create_features dfc = .ok dff →
      env.prepare_for_ml dfc "rating" = .error e →
      (jupyterRun env).2 = .error e) ∧
    (∀ df dfc eda dff x y, env.load_data = .ok (some df) →
      env.get_data_info = .ok () → env.clean_data df = .ok dfc →
      env.generate_comprehensive_report dfc = .ok eda →
      env.create_features dfc = .ok dff →
      env.prepare_for_ml dfc "rating" = .ok (x, y) →
      env.train_models x y = .error e → (jupyterRun env).2 = .error e) ∧
    (∀ df dfc eda dff x y s0, env.load_data = .ok (some df) →
      env.get_data_info = .ok () → env.clean_data df = .ok dfc →
      env.generate_comprehensive_report dfc = .ok eda →
      env.create_features dfc = .ok dff →
      env.prepare_for_ml dfc "rating" = .ok (x, y) →
      env.train_models x y = .ok s0 →
      env.plot_model_comparison s0 = .error e →
      (jupyterRun env).2 = .error e) ∧
    (∀ df dfc eda dff x y s0, env.load_data = .ok (some df) →
      env.get_data_info = .ok () → env.clean_data df = .ok dfc →
      env.generate_comprehensive_report dfc = .ok eda →
      env.create_features dfc = .ok dff →
      env.prepare_for_ml dfc "rating" = .ok (x, y) →
      env.train_models x y = .ok s0 →
      env.plot_model_comparison s0 = .ok () →
      env.plot_predictions s0 = .error e → (jupyterRun env).2 = .error e) ∧
    (∀ df dfc eda dff x y s0, env.load_data = .ok (some df) →
      env.get_data_info = .ok () → env.clean_data df = .ok dfc →
      env.generate_comprehensive_report dfc = .ok eda →
      env.create_features dfc = .ok dff →
      env.prepare_for_ml dfc "rating" = .ok (x, y) →
      env.train_models x y = .ok s0 →
      env.plot_model_comparison s0 = .ok () →
      env.plot_predictions s0 = .ok () →
      env.get_feature_importance s0 = .error e →
      (jupyterRun env).2 = .error e) := by
  refine ⟨?_, ?_, ?_, ?_, ?_, ?_, ?_, ?_, ?_, ?_, ?_, ?_, ?_, ?_, ?_, ?_,
    ?_, ?_, ?_, ?_, ?_, ?_⟩
  · intro h
    exact ⟨by simp [mainRun, emitCall, h],
           by simp [jupyterRun, emitCall, h]⟩
  · intro df h1 h2
    exact ⟨by simp [mainRun, emitCall, h1, h2],
           by simp [jupyterRun, emitCall, h1, h2]⟩
  · intro df h1 h2 h3
    simp [mainRun, emitCall, h1, h2, h3]
  · intro df h1 h2 h3 h4
    simp [mainRun, emitCall, h1, h2, h3, h4]
  · intro df dfc h1 h2 h3 h4 h5
    simp [mainRun, emitCall, h1, h2, h3, h4, h5]
  · intro df dfc summ h1 h2 h3 h4 h5 h6
    simp [mainRun, emitCall, h1, h2, h3, h4, h5, h6]
  · intro df dfc summ eda h1 h2 h3 h4 h5 h6 h7
    simp [mainRun, emitCall, h1, h2, h3, h4, h5, h6, h7]
  · intro df dfc summ eda dff h1 h2 h3 h4 h5 h6 h7 h8
    simp [mainRun, emitCall, h1, h2, h3, h4, h5, h6, h7, h8]
  · intro df dfc summ eda dff x y h1 h2 h3 h4 h5 h6 h7 h8 h9
    simp [mainRun, emitCall, h1, h2, h3, h4, h5, h6, h7, h8, h9]
  · intro df dfc summ eda dff x y s0 h1 h2 h3 h4 h5 h6 h7 h8 h9 h10
    simp [mainRun, emitCall, h1, h2, h3, h4, h5, h6, h7, h8, h9, h10]
  · intro df dfc summ eda dff x y s0 h1 h2 h3 h4 h5 h6 h7 h8 h9 h10 h11
    simp [mainRun, emitCall, h1, h2, h3, h4, h5, h6, h7, h8, h9, h10, h11]
  · intro df dfc summ eda dff x y s0 h1 h2 h3 h4 h5 h6 h7 h8 h9 h10 h11 h12
    simp [mainRun, emitCall, h1, h2, h3, h4, h5, h6, h7, h8, h9, h10, h11,
      h12]
  · intro df dfc summ eda dff x y s0 imp h1 h2 h3 h4 h5 h6 h7 h8 h9 h10 h11
      h12 h13
    simp [mainRun, emitCall, h1, h2, h3, h4, h5, h6, h7, h8, h9, h10, h11,
      h12, h13]
  · intro df dfc summ eda dff x y s0 imp s1 h1 h2 h3 h4 h5 h6 h7 h8 h9 h10
      h11 h12 h13 h14
    simp [mainRun, emitCall, h1, h2, h3, h4, h5, h6, h7, h8, h9, h10, h11,
      h12, h13, h14]
  · intro df h1 h2 h3
    simp [jupyterRun, emitCall, h1, h2, h3]
  · intro df dfc h1 h2 h3 h4
    simp [jupyterRun, emitCall, h1, h2, h3, h4]
  · intro df dfc eda h1 h2 h3 h4 h5
    simp [jupyterRun, emitCall, h1, h2, h3, h4, h5]
  · intro df dfc eda dff h1 h2 h3 h4 h5 h6
    simp [jupyterRun, emitCall, prepare_for_ml_default_target, h1, h2, h3,
      h4, h5, h6]
  · intro df dfc eda dff x y h1 h2 h3 h4 h5 h6 h7
    simp [jupyterRun, emitCall, prepare_for_ml_default_target, h1, h2, h3,
      h4, h5, h6, h7]
  · intro df dfc eda dff x y s0 h1 h2 h3 h4 h5 h6 h7 h8
    simp [jupyterRun, emitCall, prepare_for_ml_default_target, h1, h2, h3,
      h4, h5, h6, h7, h8]
  · intro df dfc eda dff x y s0 h1 h2 h3 h4 h5 h6 h7 h8 h9
    simp [jupyterRun, emitCall, prepare_for_ml_default_target, h1, h2, h3,
      h4, h5, h6, h7, h8, h9]
  · intro df dfc eda dff x y s0 h1 h2 h3 h4 h5 h6 h7 h8 h9 h10
    simp [jupyterRun, emitCall, prepare_for_ml_default_target, h1, h2, h3,
      h4, h5, h6, h7, h8, h9, h10]

theorem C7_witness :
    ((mainRun envLoadErr).2 = .error (.raised "io error") ∧
      (jupyterRun envLoadErr).2 = .error (.raised "io error")) ∧
    (mainRun envCleanErr).2 = .error (.raised "boom") :=
  ⟨(C7_uncaught_exceptions_propagate envLoadErr (.raised "io error")).1 rfl,
   (C7_uncaught_exceptions_propagate envCleanErr
       (.raised "boom")).2.2.2.1 dfEx rfl rfl rfl rfl⟩

/-- C8 counterexample: in an environment where every call succeeds and
hyperparameter tuning improves each model by one point of test R², the
two entry scripts neither perform the same sequence of stage calls (main
additionally runs basic stats, the cleaning summary, two tuning calls
and a second evaluation) nor produce the same model-results table (main
reports the post-tuning table, `interactive_analysis` the pre-tuning
one). -/
theorem C8_counterexample :
    ¬ (stagesOf (mainRun envTune).1 = stagesOf (jupyterRun envTune).1 ∧
       modelResultsOf (mainRun envTune) = modelResultsOf (jupyterRun envTune)) := by
  decide

/-- C8 amended: over the same environment, the stage-call sequence of
`interactive_analysis` is a subsequence of that of `main`, and when
hyperparameter tuning leaves the predictor state unchanged the two
scripts bind the same model-results table — the ranking of the trained
state — in their returned dictionaries. -/
theorem C8_equivalence_amended (env : Env) {df dfc dff : DataFrame}
    {summ : CleanSummary} {eda : EdaReport} {x : Features} {y : Target}
    {s0 s1 s2 : PredState} {imp : ImportanceDf} {best : ModelRow}
    {rest : List ModelRow}
    (hl : env.load_data = .ok (some df))
    (hi : env.get_data_info = .ok ())
    (hb : env.get_basic_stats = .ok ())
    (hc : env.clean_data df = .ok dfc)
    (hs : env.get_cleaned_summary df = .ok summ)
    (he : env.generate_comprehensive_report dfc = .ok eda)
    (hf : env.create_features dfc = .ok dff)
    (hp : env.prepare_for_ml dfc "rating" = .ok (x, y))
    (ht : env.train_models x y = .ok s0)
    (hpc : env.plot_model_comparison s0 = .ok ())
    (hpp : env.plot_predictions s0 = .ok ())
    (hfi : env.get_feature_importance s0 = .ok imp)
    (h1 : env.hyperparameter_tuning "Random Forest" s0 = .ok s1)
    (h2 : env.hyperparameter_tuning "Gradient Boosting" s1 = .ok s2)
    (htune : ∀ name s, env.hyperparameter_tuning name s = .ok s)
    (hbest : evaluate_models s0 = best :: rest)
    (hyr : ∀ tbl, eda.yearly_ratings = some tbl → tbl ≠ []) :
    (stagesOf (jupyterRun env).1).Sublist (stagesOf (mainRun env).1) ∧
    modelResultsOf (mainRun env) = some (evaluate_models s0) ∧
    modelResultsOf (jupyterRun env) = some (evaluate_models s0) := by
  have e1 : s1 = s0 := by
    rw [htune "Random Forest" s0] at h1
    exact (Except.ok.inj h1).symm
  subst e1
  have e2 : s2 = s1 := by
    rw [htune "Gradient Boosting" s1] at h2
    exact (Except.ok.inj h2).symm
  subst e2
  rw [mainRun_success hl hi hb hc hs he hf hp ht hpc hpp hfi h1 h2 hbest hyr,
    jupyterRun_success hl hi hc he hf hp ht hpc hpp hfi hbest hyr]
  refine ⟨?_, ?_, ?_⟩
  · simp only [stagesOf_append, stagesOf_bestYearPrints,
      stagesOf_temporalPrints, stagesOf_genrePrints]
    simp [stagesOf, mainTraceCore, jTraceCore]
    try decide
  · rw [← hbest]
    simp [modelResultsOf, mainDict, List.lookup]
  · rw [← hbest]
    simp [modelResultsOf, jDict, List.lookup]

theorem C8_amended_witness :
    modelResultsOf (mainRun envOk) = some (evaluate_models predEx) :=
  (C8_equivalence_amended envOk rfl rfl rfl rfl rfl rfl rfl rfl rfl rfl rfl
      rfl rfl rfl (fun _ _ => rfl)
      (show evaluate_models predEx = rowRF :: [rowGB, rowLR] by decide)
      (by intro tbl h; simp [edaEx] at h; subst h; decide)).2.1

/-- C10: every successful run of `main` returns a dictionary whose keys
are exactly cleaned_data, features, target, model_results, eda_report
and predictor, whose model_results entry is the evaluation of the tuned
predictor state `s2`, and whose best-year insight line is printed
exactly when the EDA report carries a non-null yearly_ratings entry. -/
theorem C10_main_returns_results_dict (env : Env) {df dfc dff : DataFrame}
    {summ : CleanSummary} {eda : EdaReport} {x : Features} {y : Target}
    {s0 s1 s2 : PredState} {imp : ImportanceDf} {best : ModelRow}
    {rest : List ModelRow}
    (hl : env.load_data = .ok (some df))
    (hi : env.get_data_info = .ok ())
    (hb : env.get_basic_stats = .ok ())
    (hc : env.clean_data df = .ok dfc)
    (hs : env.get_cleaned_summary df = .ok summ)
    (he : env.generate_comprehensive_report dfc = .ok eda)
    (hf : env.create_features dfc = .ok dff)
    (hp : env.prepare_for_ml dfc "rating" = .ok (x, y))
    (ht : env.train_models x y = .ok s0)
    (hpc : env.plot_model_comparison s0 = .ok ())
    (hpp : env.plot_predictions s0 = .ok ())
    (hfi : env.get_feature_importance s0 = .ok imp)
    (h1 : env.hyperparameter_tuning "Random Forest" s0 = .ok s1)
    (h2 : env.hyperparameter_tuning "Gradient Boosting" s1 = .ok s2)
    (hbest : evaluate_models s2 = best :: rest)
    (hyr : ∀ tbl, eda.yearly_ratings = some tbl → tbl ≠ []) :
    (mainRun env).2 = .ok (some (mainDict dfc x y (best :: rest) eda s2)) ∧
    (mainDict dfc x y (best :: rest) eda s2).map Prod.fst =
      ["cleaned_data", "features", "target", "model_results", "eda_report",
       "predictor"] ∧
    ("model_results", ResVal.tableV (evaluate_models s2)) ∈
      mainDict dfc x y (best :: rest) eda s2 ∧
    ((∃ yr, Event.print (Msg.bestYear yr) ∈ (mainRun env).1) ↔
      eda.yearly_ratings ≠ none) := by
  have hrw :=
    mainRun_success hl hi hb hc hs he hf hp ht hpc hpp hfi h1 h2 hbest hyr
  refine ⟨by rw [hrw], by simp [mainDict], ?_, ?_⟩
  · rw [hbest]
    simp [mainDict]
  · rw [hrw]
    constructor
    · rintro ⟨yr, hyr2⟩ hnone
      simp [bestYearPrints, hnone, mainTraceCore] at hyr2
    · intro hne
      rcases hy : eda.yearly_ratings with _ | tbl
      · exact absurd hy hne
      · have hne2 := hyr tbl hy
        rcases tbl with _ | ⟨r, rs⟩
        · exact absurd rfl hne2
        · obtain ⟨yr, hfm⟩ :
              ∃ yr, firstMaxBy (fun r => r.mean) (r :: rs) = some yr := by
            have hso := firstMaxBy_isSome (fun r => r.mean) r rs
            rcases hq : firstMaxBy (fun r => r.mean) (r :: rs) with _ | yr
            · rw [hq] at hso; simp at hso
            · exact ⟨yr, rfl⟩
          exact ⟨yr, by simp [bestYearPrints, hy, hfm, mainTraceCore]⟩

theorem C10_witness :
    (mainDict dfcEx xEx yEx (rowRF :: [rowGB, rowLR]) edaEx predEx).map
        Prod.fst =
      ["cleaned_data", "features", "target", "model_results", "eda_report",
       "predictor"] :=
  (C10_main_returns_results_dict envOk rfl rfl rfl rfl rfl rfl rfl rfl rfl
      rfl rfl rfl rfl rfl
      (show evaluate_models predEx = rowRF :: [rowGB, rowLR] by decide)
      (by intro tbl h; simp [edaEx] at h; subst h; decide)).2.1

end MoviePipeline
